import Mathlib

/-
Verification of the job-lifecycle core of the DTQM distributed task queue.

The embedding translates the two source modules:
  api/main.py    : submission gateway (submit_task) and status query (get_task_status)
  worker/main.py : the worker loop (dequeue, IN_PROGRESS update, registry dispatch,
                   terminal update), its exception arms, and get_db_connection.

JSON documents are modelled by the inductive JVal (objects as association lists,
arrays omitted: no value exchanged by this core is an array).  Stores are lists of
task records keyed by the id field; SQL UPDATE ... WHERE id = x is a map over the
list, SELECT ... WHERE id = x is the first match.  Timestamps are naturals supplied
by the caller in place of NOW().  I/O failures are injected as explicit events so
that each except-arm of the Python code becomes a reachable branch.
-/

namespace DTQM

/-- A JSON value: null, boolean, integer, string, or object (association list).
Arrays are omitted: no payload produced or consumed by this core is an array. -/
inductive JVal where
  | jnull
  | jbool (b : Bool)
  | jnum (n : Int)
  | jstr (s : String)
  | jobj (fields : List (String × JVal))
deriving Repr

/-- Decidable equality for JVal, by nested structural recursion. -/
def JVal.decEq : (a b : JVal) → Decidable (a = b)
  | .jnull, .jnull => isTrue rfl
  | .jbool a, .jbool b =>
    match inferInstanceAs (Decidable (a = b)) with
    | isTrue h => isTrue (by rw [h])
    | isFalse h => isFalse (by intro hc; cases hc; exact h rfl)
  | .jnum a, .jnum b =>
    match inferInstanceAs (Decidable (a = b)) with
    | isTrue h => isTrue (by rw [h])
    | isFalse h => isFalse (by intro hc; cases hc; exact h rfl)
  | .jstr a, .jstr b =>
    match inferInstanceAs (Decidable (a = b)) with
    | isTrue h => isTrue (by rw [h])
    | isFalse h => isFalse (by intro hc; cases hc; exact h rfl)
  | .jobj a, .jobj b =>
    match go a b with
    | isTrue h => isTrue (by rw [h])
    | isFalse h => isFalse (by intro hc; cases hc; exact h rfl)
  | .jnull, .jbool _ => isFalse (by intro hc; cases hc)
  | .jnull, .jnum _ => isFalse (by intro hc; cases hc)
  | .jnull, .jstr _ => isFalse (by intro hc; cases hc)
  | .jnull, .jobj _ => isFalse (by intro hc; cases hc)
  | .jbool _, .jnull => isFalse (by intro hc; cases hc)
  | .jbool _, .jnum _ => isFalse (by intro hc; cases hc)
  | .jbool _, .jstr _ => isFalse (by intro hc; cases hc)
  | .jbool _, .jobj _ => isFalse (by intro hc; cases hc)
  | .jnum _, .jnull => isFalse (by intro hc; cases hc)
  | .jnum _, .jbool _ => isFalse (by intro hc; cases hc)
  | .jnum _, .jstr _ => isFalse (by intro hc; cases hc)
  | .jnum _, .jobj _ => isFalse (by intro hc; cases hc)
  | .jstr _, .jnull => isFalse (by intro hc; cases hc)
  | .jstr _, .jbool _ => isFalse (by intro hc; cases hc)
  | .jstr _, .jnum _ => isFalse (by intro hc; cases hc)
  | .jstr _, .jobj _ => isFalse (by intro hc; cases hc)
  | .jobj _, .jnull => isFalse (by intro hc; cases hc)
  | .jobj _, .jbool _ => isFalse (by intro hc; cases hc)
  | .jobj _, .jnum _ => isFalse (by intro hc; cases hc)
  | .jobj _, .jstr _ => isFalse (by intro hc; cases hc)
where go : (xs ys : List (String × JVal)) → Decidable (xs = ys)
  | [], [] => isTrue rfl
  | [], _ :: _ => isFalse (by intro hc; cases hc)
  | _ :: _, [] => isFalse (by intro hc; cases hc)
  | (k, v) :: xs, (l, w) :: ys =>
    match inferInstanceAs (Decidable (k = l)), JVal.decEq v w, go xs ys with
    | isTrue h1, isTrue h2, isTrue h3 => isTrue (by rw [h1, h2, h3])
    | isFalse h1, _, _ => isFalse (by intro hc; cases hc; exact h1 rfl)
    | _, isFalse h2, _ => isFalse (by intro hc; cases hc; exact h2 rfl)
    | _, _, isFalse h3 => isFalse (by intro hc; cases hc; exact h3 rfl)

instance : DecidableEq JVal := JVal.decEq

/-- First-match association-list lookup, as Python dict indexing on the
parsed JSON documents used by this core (their keys are distinct). -/
def alookup {α : Type} : List (String × α) → String → Option α
  | [], _ => none
  | (k, v) :: rest, key => if k = key then some v else alookup rest key

/-- The status enumeration stored in the tasks relation. -/
inductive Status where
  | PENDING
  | IN_PROGRESS
  | COMPLETED
  | FAILED
deriving DecidableEq, Repr

/-- Position of a status along the lifecycle PENDING, IN_PROGRESS, terminal. -/
def Status.rank : Status → Nat
  | .PENDING => 0
  | .IN_PROGRESS => 1
  | .COMPLETED => 2
  | .FAILED => 2

/-- COMPLETED and FAILED are the terminal statuses. -/
def Status.isTerminal : Status → Bool
  | .COMPLETED => true
  | .FAILED => true
  | _ => false

/-- One row of the tasks relation. -/
structure TaskRecord where
  id : String
  task_name : String
  status : Status
  submitted_at : Nat
  started_at : Option Nat
  completed_at : Option Nat
  result : Option JVal
deriving DecidableEq, Repr

/-- The durable store: the rows of the tasks relation. -/
abbrev Store := List TaskRecord

/-- SELECT * FROM tasks WHERE id = key (first matching row, as fetchrow). -/
def dbLookup (store : Store) (key : String) : Option TaskRecord :=
  store.find? (fun r => r.id == key)

/-- UPDATE tasks SET ... WHERE id = key: applies f to every row whose id matches. -/
def dbUpdate (store : Store) (key : String) (f : TaskRecord → TaskRecord) : Store :=
  store.map (fun r => if r.id = key then f r else r)

/-- UPDATE tasks SET status = IN_PROGRESS, started_at = NOW() (worker step 5). -/
def setInProgress (t : Nat) (r : TaskRecord) : TaskRecord :=
  { r with status := .IN_PROGRESS, started_at := some t }

/-- UPDATE tasks SET status = COMPLETED, completed_at = NOW(), result = res. -/
def setCompleted (t : Nat) (res : JVal) (r : TaskRecord) : TaskRecord :=
  { r with status := .COMPLETED, completed_at := some t, result := some res }

/-- UPDATE tasks SET status = FAILED, completed_at = NOW(), result = res. -/
def setFailed (t : Nat) (res : JVal) (r : TaskRecord) : TaskRecord :=
  { r with status := .FAILED, completed_at := some t, result := some res }

/-- The envelope pushed onto the task_queue list by submit_task and parsed back
by the worker: the json.dumps document with keys task_id, task_name, params. -/
structure Envelope where
  task_id : String
  task_name : String
  params : List (String × JVal)
deriving DecidableEq, Repr

/-- Joint state of the two external systems touched by submission:
the Postgres tasks relation and the Redis task_queue list. -/
structure SysState where
  store : Store
  queue : List Envelope
deriving DecidableEq, Repr

/-- Pydantic v1 validation of a str field: accepts strings verbatim and coerces
numbers and booleans with str(); rejects null and objects. -/
def strValidator : JVal → Option String
  | .jstr s => some s
  | .jnum n => some (toString n)
  | .jbool b => some (if b then "True" else "False")
  | _ => none

/-- Pydantic v1 validation of a dict field: accepts an object, rejects the rest. -/
def dictValidator : JVal → Option (List (String × JVal))
  | .jobj fields => some fields
  | _ => none

/-- The validated body of POST /tasks, as the pydantic model TaskRequest. -/
structure TaskRequest where
  task_name : String
  params : List (String × JVal)
deriving DecidableEq, Repr

/-- FastAPI request validation for TaskRequest: both fields are required,
task_name validated as str and params as dict.  Returns none on a 422
validation failure, which is raised before the endpoint body runs. -/
def validateTaskRequest (body : List (String × JVal)) : Option TaskRequest :=
  match alookup body "task_name", alookup body "params" with
  | some nv, some pv =>
    match strValidator nv, dictValidator pv with
    | some name, some ps => some { task_name := name, params := ps }
    | _, _ => none
  | _, _ => none

/-- The errors surfaced by the submission endpoint. -/
inductive ApiError where
  | validationError (msg : String)
  | storageUnavailable
  | queueUnavailable
deriving DecidableEq, Repr

/-- Outcome of POST /tasks. -/
inductive SubmitResult where
  | accepted (task_id : String)
  | failed (e : ApiError)
deriving DecidableEq, Repr

/-- Injected infrastructure outcome for one run of submit_task.  The body is:
acquire a connection, open a transaction, INSERT the PENDING row, lpush the
envelope, then commit on leaving the transaction block.  The events name the
first step that raises; asyncpg rolls the INSERT back when lpush raises inside
the transaction block (pushFail), while a failing COMMIT (commitFail) leaves
the lpush already executed with the INSERT not durable. -/
inductive SubmitEvent where
  | ok
  | dbAcquireFail
  | insertFail
  | pushFail
  | commitFail
deriving DecidableEq, Repr

/-- A fresh PENDING row as written by the INSERT in submit_task
(submitted_at is the submission-time timestamp defaulted by the schema). -/
def mkRecord (id name : String) (t : Nat) : TaskRecord :=
  { id := id, task_name := name, status := .PENDING, submitted_at := t,
    started_at := none, completed_at := none, result := none }

/-- The submission endpoint submit_task of api/main.py.  newId stands for the
freshly generated uuid4 and t for the submission timestamp; ev injects the
infrastructure outcome.  On success the PENDING row is inserted and the
envelope holding exactly (task_id, task_name, params) is pushed. -/
def submit_task (body : List (String × JVal)) (newId : String) (t : Nat)
    (ev : SubmitEvent) (st : SysState) : SysState × SubmitResult :=
  match validateTaskRequest body with
  | none => (st, .failed (.validationError "request body does not match TaskRequest"))
  | some req =>
    let env : Envelope := { task_id := newId, task_name := req.task_name, params := req.params }
    match ev with
    | .dbAcquireFail => (st, .failed .storageUnavailable)
    | .insertFail => (st, .failed .storageUnavailable)
    | .pushFail => (st, .failed .queueUnavailable)
    | .commitFail => ({ st with queue := env :: st.queue }, .failed .storageUnavailable)
    | .ok => ({ store := st.store ++ [mkRecord newId req.task_name t],
                queue := env :: st.queue }, .accepted newId)

/-- Drops pat from the front of s when it is an initial segment, else none. -/
def dropPat? : List Char → List Char → Option (List Char)
  | [], s => some s
  | _ :: _, [] => none
  | p :: ps, c :: cs => if p = c then dropPat? ps cs else none

/-- Fuel-indexed worker for replAll; the fuel is the length of the subject,
which bounds the number of steps since every step consumes a character. -/
def replAllAux (pat : List Char) : Nat → List Char → List Char
  | 0, s => s
  | _ + 1, [] => []
  | fuel + 1, c :: cs =>
    match dropPat? pat (c :: cs) with
    | some rest => replAllAux pat fuel rest
    | none => c :: replAllAux pat fuel cs

/-- Python str.replace(pat, ""): deletes every occurrence of pat, left to right. -/
def replAll (pat : String) (s : List Char) : List Char :=
  replAllAux pat.toList s.length s

/-- Membership in the strip set of Python str.strip applied with the two brace
characters (written by code point to keep braces out of the literals). -/
def isBraceChar (c : Char) : Bool :=
  c = Char.ofNat 123 || c = Char.ofNat 125

/-- Python str.strip(set): removes leading and trailing characters in the set. -/
def stripEnds (p : Char → Bool) (s : List Char) : List Char :=
  ((s.dropWhile p).reverse.dropWhile p).reverse

/-- A hexadecimal digit as accepted by int(s, 16) on a single character. -/
def isHexChar (c : Char) : Bool :=
  c.isDigit || ('a' ≤ c && c ≤ 'f') || ('A' ≤ c && c ≤ 'F')

/-- Models the string parsing of the standard-library uuid.UUID constructor used
by get_task_status (the library itself is outside src).  Following its source:
remove the urn: and uuid: markers, strip surrounding braces, delete hyphens,
then require exactly 32 hexadecimal digits.  The lenience of int(s, 16) toward
signs, underscores and surrounding whitespace is not modelled. -/
def pyUUIDOk (s : String) : Bool :=
  let h1 := replAll "urn:" s.toList
  let h2 := replAll "uuid:" h1
  let h3 := replAll "-" (stripEnds isBraceChar h2)
  h3.length == 32 && h3.all isHexChar

/-- Outcome of GET /tasks/{task_id}: the record, or an HTTPException. -/
inductive QueryResult where
  | ok (record : TaskRecord)
  | httpError (status : Nat) (detail : String)
deriving DecidableEq, Repr

/-- The status endpoint get_task_status of api/main.py.  The second component
is the trace of SELECTs issued against the store, so that failing fast before
any store access is an observable property: a malformed id yields 400 with an
empty trace, a missing row yields 404, otherwise the row is returned. -/
def get_task_status (store : Store) (task_id : String) : QueryResult × List String :=
  if pyUUIDOk task_id then
    match dbLookup store task_id with
    | some r => (.ok r, [task_id])
    | none => (.httpError 404 ("Task with ID " ++ task_id ++ " not found."), [task_id])
  else
    (.httpError 400 "Invalid Task ID format.", [])

/-- A registered task capability: the names of its (required, positional)
parameters and its body.  The body returns a result document or raises,
modelled as Except with the exception text on the left. -/
structure Handler where
  paramNames : List String
  run : List (String × JVal) → Except String JVal

/-- Keyword-argument binding for f(**params): the call enters the body exactly
when the keys of params are a permutation of the declared parameter names;
a missing or unexpected keyword raises TypeError at the call site. -/
def kwargsMatch (f : Handler) (params : List (String × JVal)) : Bool :=
  (params.map Prod.fst).isPerm f.paramNames

/-- The call task_function(**params): TypeError on a keyword mismatch,
otherwise whatever the handler body returns or raises. -/
def callKwargs (f : Handler) (params : List (String × JVal)) : Except String JVal :=
  if kwargsMatch f params then f.run params
  else .error "TypeError: keyword arguments do not match the function parameters"

/-- The scan_url task of worker/main.py: returns a fixed result document. -/
def scan_url : Handler :=
  { paramNames := ["url"],
    run := fun _ => .ok (.jobj
      [("status_code", .jnum 200), ("title", .jstr "Example Domain"),
       ("vulnerabilities_found", .jnum 0)]) }

/-- The fetch_ip task of worker/main.py: echoes the hostname argument back
beside a fixed address. -/
def fetch_ip : Handler :=
  { paramNames := ["hostname"],
    run := fun params => .ok (.jobj
      [("ip_address", .jstr "93.184.216.34"),
       ("hostname", (alookup params "hostname").getD .jnull)]) }

/-- The static task registry of worker/main.py. -/
def TASK_REGISTRY : List (String × Handler) :=
  [("scan_url", scan_url), ("fetch_ip", fetch_ip)]

/-- The error document written for an unregistered task name. -/
def errorPayload (task_name : String) : JVal :=
  .jobj [("error", .jstr ("Task name \x27" ++ task_name ++ "\x27 not found in registry."))]

/-- Resolution of one worker-loop iteration body when no exception escapes. -/
inductive StepOutcome where
  | completed (res : JVal)
  | failedUnregistered
deriving DecidableEq, Repr

/-- The Python exceptions distinguished by the three except arms of the loop:
psycopg2.Error, redis RedisError, and every other Exception. -/
inductive PyExc where
  | dbError
  | redisError
  | otherError (msg : String)
deriving DecidableEq, Repr

/-- Result of the try body: a resolution, or an exception reaching the arms. -/
inductive BodyOutcome where
  | ok (o : StepOutcome)
  | err (e : PyExc)
deriving DecidableEq, Repr

/-- One iteration of the while loop, from the environment's point of view:
a Redis failure at brpop, an undecodable envelope, or a delivered envelope
with the two NOW() timestamps; dbFail injects a psycopg2 error at the k-th
database execute of the iteration (0 = the IN_PROGRESS update, 1 = the
terminal update). -/
inductive IterInput where
  | redisDown
  | badEnvelope (s : String)
  | deliver (env : Envelope) (t1 t2 : Nat) (dbFail : Option Nat)
deriving DecidableEq, Repr

/-- Observable effects of one run of the try body: the store after each
database write in order, the resolution or escaping exception, and the
handler bodies actually entered (name with the keyword arguments). -/
structure BodyResult where
  trace : List Store
  outcome : BodyOutcome
  calls : List (String × List (String × JVal))
deriving DecidableEq, Repr

/-- The try body of the worker loop (worker/main.py main, steps 4 to 6):
dequeue, decode, unconditional IN_PROGRESS update, registry lookup, dispatch,
then the COMPLETED or FAILED update.  Failures surface as the exception that
the corresponding Python statement raises. -/
def workerBody (registry : List (String × Handler)) (inp : IterInput)
    (store : Store) : BodyResult :=
  match inp with
  | .redisDown => { trace := [], outcome := .err .redisError, calls := [] }
  | .badEnvelope s =>
    { trace := [], outcome := .err (.otherError ("envelope decode failed: " ++ s)), calls := [] }
  | .deliver env t1 t2 dbFail =>
    if dbFail = some 0 then { trace := [], outcome := .err .dbError, calls := [] }
    else
      let s1 := dbUpdate store env.task_id (setInProgress t1)
      match alookup registry env.task_name with
      | some f =>
        let calls := if kwargsMatch f env.params then [(env.task_name, env.params)] else []
        match callKwargs f env.params with
        | .ok result =>
          if dbFail = some 1 then { trace := [s1], outcome := .err .dbError, calls := calls }
          else
            { trace := [s1, dbUpdate s1 env.task_id (setCompleted t2 result)],
              outcome := .ok (.completed result), calls := calls }
        | .error msg => { trace := [s1], outcome := .err (.otherError msg), calls := calls }
      | none =>
        if dbFail = some 1 then { trace := [s1], outcome := .err .dbError, calls := [] }
        else
          { trace := [s1, dbUpdate s1 env.task_id (setFailed t2 (errorPayload env.task_name))],
            outcome := .ok .failedUnregistered, calls := [] }

/-- The store the iteration leaves behind: after the last completed write. -/
def bodyFinal (registry : List (String × Handler)) (inp : IterInput)
    (store : Store) : Store :=
  (workerBody registry inp store).trace.getLastD store

/-- What the worker does after the try body, before the next iteration. -/
inductive IterAction where
  | proceed
  | reconnectDb
  | sleepRetry (secs : Nat)
deriving DecidableEq, Repr

/-- The three except arms of the loop: psycopg2.Error reconnects, RedisError
sleeps 5 seconds, and the final except Exception arm sleeps 5 seconds; every
arm falls through to the next iteration of while True. -/
def catchClauses : PyExc → IterAction
  | .dbError => .reconnectDb
  | .redisError => .sleepRetry 5
  | .otherError _ => .sleepRetry 5

/-- One full iteration of the while loop: run the try body, and on an escaping
exception take the matching except arm. -/
def workerIter (registry : List (String × Handler)) (inp : IterInput)
    (store : Store) : Store × IterAction :=
  let r := workerBody registry inp store
  match r.outcome with
  | .ok _ => (r.trace.getLastD store, .proceed)
  | .err e => (r.trace.getLastD store, catchClauses e)

/-- The while True loop run over a finite schedule of iteration inputs;
it records the action taken after every iteration. -/
def workerLoop (registry : List (String × Handler)) :
    List IterInput → Store → Store × List IterAction
  | [], store => (store, [])
  | inp :: rest, store =>
    let (s, a) := workerIter registry inp store
    let (s', as) := workerLoop registry rest s
    (s', a :: as)

/-- The store states observed after every database write while the worker
processes a sequence of delivered envelopes (each with its two timestamps)
with no infrastructure failures. -/
def processAll (registry : List (String × Handler)) :
    List (Envelope × Nat × Nat) → Store → List Store
  | [], _ => []
  | (env, t1, t2) :: rest, store =>
    (workerBody registry (.deliver env t1 t2 none) store).trace
      ++ processAll registry rest (bodyFinal registry (.deliver env t1 t2 none) store)

/-- The per-record transformation a failure-free iteration applies to the row
the envelope addresses; it is a function of the envelope (and registry and
timestamps) alone, never of the store. -/
def recXform (registry : List (String × Handler)) (env : Envelope)
    (t1 t2 : Nat) : TaskRecord → TaskRecord :=
  fun r =>
    match alookup registry env.task_name with
    | some f =>
      match callKwargs f env.params with
      | .ok res => setCompleted t2 res (setInProgress t1 r)
      | .error _ => setInProgress t1 r
    | none => setFailed t2 (errorPayload env.task_name) (setInProgress t1 r)

/-- The reconnect loop get_db_connection of worker/main.py, observed for a
bounded number of attempts: outcomes gives the success of each successive
connection attempt; the result is the index of the first successful attempt
paired with the total seconds slept (5 per failed attempt), or none when no
attempt within the window succeeds. -/
def get_db_connection (outcomes : Nat → Bool) : Nat → Option (Nat × Nat)
  | 0 => none
  | fuel + 1 =>
    if outcomes 0 then some (0, 0)
    else
      match get_db_connection (fun k => outcomes (k + 1)) fuel with
      | some (i, s) => some (i + 1, s + 5)
      | none => none

/-- One admissible observation step on a row between consecutive store states:
the row may not disappear, its status rank may never decrease, and a row
already terminal may not change at all. -/
def recStepB : Option TaskRecord → Option TaskRecord → Bool
  | none, none => true
  | none, some _ => false
  | some _, none => false
  | some r1, some r2 =>
    decide (r1.status.rank ≤ r2.status.rank) &&
      (if r1.status.isTerminal then decide (r2 = r1) else true)

/-- Bool-valued chain predicate: R holds between every two consecutive items. -/
def chainB {α : Type} (R : α → α → Bool) : List α → Bool
  | [] => true
  | [_] => true
  | a :: b :: l => R a b && chainB R (b :: l)

/-- Every status-setting update leaves the id column untouched. -/
theorem setInProgress_pres_id (t : Nat) : ∀ r, (setInProgress t r).id = r.id :=
  fun _ => rfl

/-- The COMPLETED update leaves the id column untouched. -/
theorem setCompleted_pres_id (t : Nat) (res : JVal) :
    ∀ r, (setCompleted t res r).id = r.id :=
  fun _ => rfl

/-- The FAILED update leaves the id column untouched. -/
theorem setFailed_pres_id (t : Nat) (res : JVal) :
    ∀ r, (setFailed t res r).id = r.id :=
  fun _ => rfl

/-- A row found under a key carries that key in its id column. -/
theorem dbLookup_id (store : Store) (key : String) (r : TaskRecord)
    (h : dbLookup store key = some r) : r.id = key := by
  have := List.find?_some h
  simpa using this

/-- Commuting SELECT with an id-preserving UPDATE. -/
theorem dbLookup_dbUpdate (store : Store) (key key' : String)
    (f : TaskRecord → TaskRecord) (hf : ∀ r, (f r).id = r.id) :
    dbLookup (dbUpdate store key f) key' =
      (dbLookup store key').map (fun r => if r.id = key then f r else r) := by
  induction store with
  | nil => rfl
  | cons a l ih =>
    have hid : (if a.id = key then f a else a).id = a.id := by
      by_cases h : a.id = key <;> simp [h, hf]
    by_cases h' : a.id = key'
    · rw [dbUpdate, List.map_cons, dbLookup,
        List.find?_cons_of_pos _ (by rw [hid]; simp [h']),
        dbLookup, List.find?_cons_of_pos _ (by simp [h'])]
      rfl
    · rw [dbUpdate, List.map_cons, dbLookup,
        List.find?_cons_of_neg _ (by rw [hid]; simp [h']),
        dbLookup, List.find?_cons_of_neg _ (by simp [h'])]
      exact ih

/-- An UPDATE keyed elsewhere does not change what SELECT returns. -/
theorem dbLookup_dbUpdate_ne (store : Store) (key key' : String)
    (f : TaskRecord → TaskRecord) (hf : ∀ r, (f r).id = r.id) (h : key' ≠ key) :
    dbLookup (dbUpdate store key f) key' = dbLookup store key' := by
  rw [dbLookup_dbUpdate store key key' f hf]
  cases hl : dbLookup store key' with
  | none => rfl
  | some r =>
    have hr := dbLookup_id store key' r hl
    simp [hr, h]

/-- SELECT after an UPDATE under the same key returns the updated row. -/
theorem dbLookup_dbUpdate_eq (store : Store) (key : String)
    (f : TaskRecord → TaskRecord) (hf : ∀ r, (f r).id = r.id) :
    dbLookup (dbUpdate store key f) key = (dbLookup store key).map f := by
  rw [dbLookup_dbUpdate store key key f hf]
  cases hl : dbLookup store key with
  | none => rfl
  | some r =>
    have hr := dbLookup_id store key r hl
    simp [hr]

/-- SELECT falls through an initial segment holding no matching row. -/
theorem dbLookup_append_of_none (s1 s2 : Store) (key : String)
    (h : dbLookup s1 key = none) :
    dbLookup (s1 ++ s2) key = dbLookup s2 key := by
  induction s1 with
  | nil => rfl
  | cons a l ih =>
    by_cases hpa : a.id = key
    · rw [dbLookup, List.find?_cons_of_pos l (by simp [hpa])] at h
      exact Option.noConfusion h
    · rw [List.cons_append, dbLookup, List.find?_cons_of_neg (l ++ s2) (by simp [hpa])]
      rw [dbLookup, List.find?_cons_of_neg l (by simp [hpa])] at h
      exact ih h

/-- The freshly inserted row is found under the fresh id. -/
theorem dbLookup_singleton_mk (id name : String) (t : Nat) :
    dbLookup [mkRecord id name t] id = some (mkRecord id name t) := by
  rw [dbLookup, List.find?_cons_of_pos _ (by simp [mkRecord])]

/-- The observation step is reflexive. -/
theorem recStepB_refl (a : Option TaskRecord) : recStepB a a = true := by
  cases a with
  | none => rfl
  | some r => simp [recStepB]

/-- A constant observation sequence is a valid chain. -/
theorem chainB_of_all_eq (l : List (Option TaskRecord)) (c : Option TaskRecord)
    (h : ∀ x ∈ l, x = c) : chainB recStepB l = true := by
  induction l with
  | nil => rfl
  | cons a l ih =>
    cases l with
    | nil => rfl
    | cons b l' =>
      have hab : recStepB a b = true := by
        rw [h a (by simp), h b (by simp)]
        exact recStepB_refl c
      rw [chainB, hab, Bool.true_and]
      exact ih (fun x hx => h x (List.mem_cons_of_mem a hx))

/-- A call that reaches the handler body had matching keyword arguments. -/
theorem callKwargs_ok_match (f : Handler) (params : List (String × JVal))
    (res : JVal) (h : callKwargs f params = .ok res) :
    kwargsMatch f params = true := by
  by_contra hneg
  rw [callKwargs, if_neg (by simpa using hneg)] at h
  exact Except.noConfusion h

/-- A PENDING row may be observed moving to IN_PROGRESS. -/
theorem recStepB_pending_inprog (r : TaskRecord) (t1 : Nat)
    (h : r.status = .PENDING) :
    recStepB (some r) (some (setInProgress t1 r)) = true := by
  simp [recStepB, setInProgress, h, Status.rank, Status.isTerminal]

/-- An IN_PROGRESS row may be observed moving to COMPLETED. -/
theorem recStepB_set_completed (r : TaskRecord) (t1 t2 : Nat) (res : JVal) :
    recStepB (some (setInProgress t1 r))
      (some (setCompleted t2 res (setInProgress t1 r))) = true := by
  simp [recStepB, setInProgress, setCompleted, Status.rank, Status.isTerminal]

/-- An IN_PROGRESS row may be observed moving to FAILED. -/
theorem recStepB_set_failed (r : TaskRecord) (t1 t2 : Nat) (res : JVal) :
    recStepB (some (setInProgress t1 r))
      (some (setFailed t2 res (setInProgress t1 r))) = true := by
  simp [recStepB, setInProgress, setFailed, Status.rank, Status.isTerminal]

/-- Extending a chain to the left by observations equal to its head. -/
theorem chainB_const_prefix (L : Option TaskRecord)
    (M tail : List (Option TaskRecord))
    (hM : ∀ x ∈ M, x = L) (htail : chainB recStepB (L :: tail) = true) :
    chainB recStepB (L :: (M ++ tail)) = true := by
  induction M with
  | nil => simpa using htail
  | cons m M' ih =>
    rw [List.cons_append, chainB, hM m (by simp), recStepB_refl, Bool.true_and]
    exact ih (fun x hx => hM x (List.mem_cons_of_mem m hx))

/-- Chain through the pair of writes an iteration issues against one row. -/
theorem chain_two_updates (store : Store) (tid : String)
    (g1 g2 : TaskRecord → TaskRecord)
    (hg1 : ∀ r, (g1 r).id = r.id) (hg2 : ∀ r, (g2 r).id = r.id)
    (hstep1 : ∀ r, dbLookup store tid = some r → recStepB (some r) (some (g1 r)) = true)
    (hstep2 : ∀ r, recStepB (some (g1 r)) (some (g2 (g1 r))) = true)
    (tail : List (Option TaskRecord))
    (htail : chainB recStepB
      (dbLookup (dbUpdate (dbUpdate store tid g1) tid g2) tid :: tail) = true) :
    chainB recStepB (dbLookup store tid :: dbLookup (dbUpdate store tid g1) tid ::
      dbLookup (dbUpdate (dbUpdate store tid g1) tid g2) tid :: tail) = true := by
  cases hl : dbLookup store tid with
  | none =>
    have e1 : dbLookup (dbUpdate store tid g1) tid = none := by
      rw [dbLookup_dbUpdate_eq _ _ _ hg1, hl]; rfl
    have e2 : dbLookup (dbUpdate (dbUpdate store tid g1) tid g2) tid = none := by
      rw [dbLookup_dbUpdate_eq _ _ _ hg2, e1]; rfl
    rw [e2] at htail
    rw [e1, e2, chainB, chainB, htail]
    rfl
  | some r =>
    have e1 : dbLookup (dbUpdate store tid g1) tid = some (g1 r) := by
      rw [dbLookup_dbUpdate_eq _ _ _ hg1, hl]; rfl
    have e2 : dbLookup (dbUpdate (dbUpdate store tid g1) tid g2) tid
        = some (g2 (g1 r)) := by
      rw [dbLookup_dbUpdate_eq _ _ _ hg2, e1]; rfl
    rw [e2] at htail
    rw [e1, e2, chainB, chainB, hstep1 r hl, hstep2 r, htail]
    rfl

/-- Chain through the single write of an iteration whose dispatch raised. -/
theorem chain_one_update (store : Store) (tid : String)
    (g1 : TaskRecord → TaskRecord) (hg1 : ∀ r, (g1 r).id = r.id)
    (hstep1 : ∀ r, dbLookup store tid = some r → recStepB (some r) (some (g1 r)) = true)
    (tail : List (Option TaskRecord))
    (htail : chainB recStepB (dbLookup (dbUpdate store tid g1) tid :: tail) = true) :
    chainB recStepB
      (dbLookup store tid :: dbLookup (dbUpdate store tid g1) tid :: tail) = true := by
  cases hl : dbLookup store tid with
  | none =>
    have e1 : dbLookup (dbUpdate store tid g1) tid = none := by
      rw [dbLookup_dbUpdate_eq _ _ _ hg1, hl]; rfl
    rw [e1] at htail
    rw [e1, chainB, htail]
    rfl
  | some r =>
    have e1 : dbLookup (dbUpdate store tid g1) tid = some (g1 r) := by
      rw [dbLookup_dbUpdate_eq _ _ _ hg1, hl]; rfl
    rw [e1] at htail
    rw [e1, chainB, hstep1 r hl, htail]
    rfl

/-- A failure-free iteration does not touch rows other than the addressed one:
every intermediate store state, and the final one, agrees with the initial
store on every other key. -/
theorem deliver_frame (registry : List (String × Handler)) (env : Envelope)
    (t1 t2 : Nat) (store : Store) (key : String) (h : key ≠ env.task_id) :
    (∀ s ∈ (workerBody registry (.deliver env t1 t2 none) store).trace,
        dbLookup s key = dbLookup store key)
    ∧ dbLookup (bodyFinal registry (.deliver env t1 t2 none) store) key
        = dbLookup store key := by
  have h1 : dbLookup (dbUpdate store env.task_id (setInProgress t1)) key
      = dbLookup store key :=
    dbLookup_dbUpdate_ne _ _ _ _ (setInProgress_pres_id t1) h
  cases halo : alookup registry env.task_name with
  | none =>
    have h2 : dbLookup (dbUpdate (dbUpdate store env.task_id (setInProgress t1))
        env.task_id (setFailed t2 (errorPayload env.task_name))) key
        = dbLookup store key := by
      rw [dbLookup_dbUpdate_ne _ _ _ _ (setFailed_pres_id _ _) h, h1]
    constructor
    · intro s hs
      simp only [workerBody, halo] at hs
      simp at hs
      rcases hs with hs | hs <;> rw [hs]
      · exact h1
      · exact h2
    · simp only [bodyFinal, workerBody, halo]
      simpa using h2
  | some f =>
    cases hcall : callKwargs f env.params with
    | ok res =>
      have h2 : dbLookup (dbUpdate (dbUpdate store env.task_id (setInProgress t1))
          env.task_id (setCompleted t2 res)) key = dbLookup store key := by
        rw [dbLookup_dbUpdate_ne _ _ _ _ (setCompleted_pres_id _ _) h, h1]
      constructor
      · intro s hs
        simp only [workerBody, halo, hcall] at hs
        simp at hs
        rcases hs with hs | hs <;> rw [hs]
        · exact h1
        · exact h2
      · simp only [bodyFinal, workerBody, halo, hcall]
        simpa using h2
    | error msg =>
      constructor
      · intro s hs
        simp only [workerBody, halo, hcall] at hs
        simp at hs
        rw [hs]
        exact h1
      · simp only [bodyFinal, workerBody, halo, hcall]
        simpa using h1

/-- One failure-free iteration extends a valid observation chain on any key:
the addressed row steps PENDING to IN_PROGRESS to a terminal status (or stays
IN_PROGRESS when dispatch raises), and every other row is untouched. -/
theorem deliver_chain_step (registry : List (String × Handler)) (env : Envelope)
    (t1 t2 : Nat) (store : Store) (key : String)
    (tail : List (Option TaskRecord))
    (hp : key = env.task_id → ∀ r, dbLookup store key = some r → r.status = .PENDING)
    (htail : chainB recStepB
      (dbLookup (bodyFinal registry (.deliver env t1 t2 none) store) key :: tail) = true) :
    chainB recStepB (dbLookup store key ::
      (((workerBody registry (.deliver env t1 t2 none) store).trace.map
        (fun s => dbLookup s key)) ++ tail)) = true := by
  by_cases hk : key = env.task_id
  · subst hk
    cases halo : alookup registry env.task_name with
    | none =>
      simp only [bodyFinal, workerBody, halo] at htail
      simp only [workerBody, halo]
      simp at htail ⊢
      exact chain_two_updates store env.task_id _ _
        (setInProgress_pres_id t1) (setFailed_pres_id t2 _)
        (fun r hr => recStepB_pending_inprog r t1 (hp rfl r hr))
        (fun r => recStepB_set_failed r t1 t2 _) tail htail
    | some f =>
      cases hcall : callKwargs f env.params with
      | ok res =>
        simp only [bodyFinal, workerBody, halo, hcall] at htail
        simp only [workerBody, halo, hcall]
        simp at htail ⊢
        exact chain_two_updates store env.task_id _ _
          (setInProgress_pres_id t1) (setCompleted_pres_id t2 _)
          (fun r hr => recStepB_pending_inprog r t1 (hp rfl r hr))
          (fun r => recStepB_set_completed r t1 t2 _) tail htail
      | error msg =>
        simp only [bodyFinal, workerBody, halo, hcall] at htail
        simp only [workerBody, halo, hcall]
        simp at htail ⊢
        exact chain_one_update store env.task_id _
          (setInProgress_pres_id t1)
          (fun r hr => recStepB_pending_inprog r t1 (hp rfl r hr)) tail htail
  · obtain ⟨hmem, hfin⟩ := deliver_frame registry env t1 t2 store key hk
    rw [hfin] at htail
    refine chainB_const_prefix (dbLookup store key) _ tail ?_ htail
    intro x hx
    obtain ⟨s, hs, rfl⟩ := List.mem_map.mp hx
    exact hmem s hs

/-- Monotonicity chain over a whole failure-free delivery schedule in which no
envelope is delivered twice and every addressed row starts out PENDING. -/
theorem processAll_chain (registry : List (String × Handler))
    (jobs : List (Envelope × Nat × Nat)) (store : Store) (key : String)
    (hids : (jobs.map (fun j => j.1.task_id)).Nodup)
    (hpend : ∀ j ∈ jobs, ∀ r, dbLookup store j.1.task_id = some r → r.status = .PENDING) :
    chainB recStepB
      ((store :: processAll registry jobs store).map (fun s => dbLookup s key)) = true := by
  induction jobs generalizing store with
  | nil => rfl
  | cons j rest ih =>
    obtain ⟨env, t1, t2⟩ := j
    simp only [List.map_cons] at hids
    obtain ⟨hnotmem, hrest⟩ := List.nodup_cons.mp hids
    have hne : ∀ j' ∈ rest, j'.1.task_id ≠ env.task_id := by
      intro j' hj' he
      exact hnotmem (he ▸ List.mem_map_of_mem (fun j => j.1.task_id) hj')
    have hpend' : ∀ j' ∈ rest, ∀ r,
        dbLookup (bodyFinal registry (.deliver env t1 t2 none) store) j'.1.task_id = some r →
          r.status = .PENDING := by
      intro j' hj' r hr
      rw [(deliver_frame registry env t1 t2 store j'.1.task_id (hne j' hj')).2] at hr
      exact hpend j' (List.mem_cons_of_mem _ hj') r hr
    have htail := ih (bodyFinal registry (.deliver env t1 t2 none) store) hrest hpend'
    simp only [List.map_cons] at htail
    simp only [processAll, List.map_cons, List.map_append]
    exact deliver_chain_step registry env t1 t2 store key _
      (fun hk r hr => hpend (env, t1, t2) (by simp) r (by rwa [hk] at hr))
      htail

/-- The store a failure-free iteration leaves behind: the addressed row is
rewritten by recXform, a function of the envelope, registry and timestamps
alone; every other row is returned unchanged. -/
theorem bodyFinal_lookup (registry : List (String × Handler)) (env : Envelope)
    (t1 t2 : Nat) (store : Store) (key : String) :
    dbLookup (bodyFinal registry (.deliver env t1 t2 none) store) key =
      if key = env.task_id then
        (dbLookup store key).map (recXform registry env t1 t2)
      else dbLookup store key := by
  by_cases hk : key = env.task_id
  · subst hk
    rw [if_pos rfl]
    cases halo : alookup registry env.task_name with
    | none =>
      have hx : recXform registry env t1 t2
          = fun r => setFailed t2 (errorPayload env.task_name) (setInProgress t1 r) := by
        funext r
        simp [recXform, halo]
      simp only [bodyFinal, workerBody, halo]
      simp [List.getLastD]
      rw [dbLookup_dbUpdate_eq _ _ _ (setFailed_pres_id _ _),
        dbLookup_dbUpdate_eq _ _ _ (setInProgress_pres_id _), Option.map_map, hx]
      rfl
    | some f =>
      cases hcall : callKwargs f env.params with
      | ok res =>
        have hx : recXform registry env t1 t2
            = fun r => setCompleted t2 res (setInProgress t1 r) := by
          funext r
          simp [recXform, halo, hcall]
        simp only [bodyFinal, workerBody, halo, hcall]
        simp [List.getLastD]
        rw [dbLookup_dbUpdate_eq _ _ _ (setCompleted_pres_id _ _),
          dbLookup_dbUpdate_eq _ _ _ (setInProgress_pres_id _), Option.map_map, hx]
        rfl
      | error msg =>
        have hx : recXform registry env t1 t2 = fun r => setInProgress t1 r := by
          funext r
          simp [recXform, halo, hcall]
        simp only [bodyFinal, workerBody, halo, hcall]
        simp [List.getLastD]
        rw [dbLookup_dbUpdate_eq _ _ _ (setInProgress_pres_id _), hx]
  · rw [if_neg hk]
    exact (deliver_frame registry env t1 t2 store key hk).2

/-- Whenever some connection attempt succeeds, the reconnect loop returns at
the first successful attempt and has slept exactly 5 seconds per preceding
failed attempt; in particular it never gives up before a success. -/
theorem get_db_connection_first_success (outcomes : Nat → Bool) (j : Nat)
    (h : outcomes j = true) :
    ∃ i, i ≤ j ∧ get_db_connection outcomes (j + 1) = some (i, 5 * i) ∧
      outcomes i = true ∧ ∀ k, k < i → outcomes k = false := by
  induction j generalizing outcomes with
  | zero =>
    refine ⟨0, Nat.le_refl 0, ?_, h, fun k hk => absurd hk (Nat.not_lt_zero k)⟩
    simp [get_db_connection, h]
  | succ j ih =>
    by_cases h0 : outcomes 0 = true
    · refine ⟨0, Nat.zero_le _, ?_, h0, fun k hk => absurd hk (Nat.not_lt_zero k)⟩
      simp [get_db_connection, h0]
    · have h0' : outcomes 0 = false := by simpa using h0
      obtain ⟨i, hle, heq, htrue, hbefore⟩ := ih (fun k => outcomes (k + 1)) h
      refine ⟨i + 1, Nat.succ_le_succ hle, ?_, htrue, ?_⟩
      · rw [get_db_connection, if_neg (by simp [h0']), heq, Nat.mul_succ]
      · intro k hk
        cases k with
        | zero => exact h0'
        | succ m => exact hbefore m (Nat.lt_of_succ_lt_succ hk)

/-- The loop takes exactly one action per scheduled iteration: no input, in
particular no infrastructure failure, terminates it early. -/
theorem workerLoop_length (registry : List (String × Handler))
    (inps : List IterInput) (store : Store) :
    ((workerLoop registry inps store).2).length = inps.length := by
  induction inps generalizing store with
  | nil => rfl
  | cons inp rest ih => simp [workerLoop, ih]

/-- When dispatch of a delivered envelope raises, the exception is caught by
the final except arm: the only write performed is the IN_PROGRESS update, no
terminal update is issued, and the iteration ends in a 5-second sleep. -/
theorem dispatch_raises_no_terminal_update (registry : List (String × Handler))
    (env : Envelope) (t1 t2 : Nat) (store : Store) (f : Handler) (msg : String)
    (hreg : alookup registry env.task_name = some f)
    (hcall : callKwargs f env.params = .error msg) :
    (workerBody registry (.deliver env t1 t2 none) store).outcome
        = .err (.otherError msg)
    ∧ (workerBody registry (.deliver env t1 t2 none) store).trace
        = [dbUpdate store env.task_id (setInProgress t1)]
    ∧ workerIter registry (.deliver env t1 t2 none) store
        = (dbUpdate store env.task_id (setInProgress t1), .sleepRetry 5)
    ∧ dbLookup (bodyFinal registry (.deliver env t1 t2 none) store) env.task_id
        = (dbLookup store env.task_id).map (setInProgress t1) := by
  refine ⟨?_, ?_, ?_, ?_⟩
  · simp [workerBody, hreg, hcall]
  · simp [workerBody, hreg, hcall]
  · simp [workerIter, workerBody, catchClauses, hreg, hcall]
  · rw [bodyFinal_lookup, if_pos rfl]
    have hx : recXform registry env t1 t2 = fun r => setInProgress t1 r := by
      funext r
      simp [recXform, hreg, hcall]
    rw [hx]

/-- Claim C3: submission failure modes.  A store outage at connection acquire
or at the INSERT surfaces StorageUnavailable with no side effect; a queue
outage at the lpush surfaces QueueUnavailable with the INSERT rolled back; and
a commit failure after the lpush surfaces StorageUnavailable with the envelope
already enqueued while the record is absent, so for that failing submission
exactly one of the two side effects persists and the record-iff-enqueued
contract does not hold. -/
theorem submit_failure_modes (body : List (String × JVal)) (req : TaskRequest)
    (newId : String) (t : Nat) (st : SysState)
    (hvalid : validateTaskRequest body = some req)
    (hfresh : dbLookup st.store newId = none) :
    submit_task body newId t .dbAcquireFail st = (st, .failed .storageUnavailable)
    ∧ submit_task body newId t .insertFail st = (st, .failed .storageUnavailable)
    ∧ submit_task body newId t .pushFail st = (st, .failed .queueUnavailable)
    ∧ (submit_task body newId t .commitFail st).2 = .failed .storageUnavailable
    ∧ dbLookup (submit_task body newId t .commitFail st).1.store newId = none
    ∧ (submit_task body newId t .commitFail st).1.queue
        = { task_id := newId, task_name := req.task_name, params := req.params } :: st.queue := by
  refine ⟨?_, ?_, ?_, ?_, ?_, ?_⟩ <;> simp [submit_task, hvalid, hfresh]

/-- Claim C4: on a successful submission the response carries the fresh id,
the store holds a PENDING record under that id immediately after the response
returns, and the envelope holding exactly the id, task name and params has
been pushed onto the queue. -/
theorem submit_success_postcondition (body : List (String × JVal))
    (req : TaskRequest) (newId : String) (t : Nat) (st : SysState)
    (hvalid : validateTaskRequest body = some req)
    (hfresh : dbLookup st.store newId = none) :
    (submit_task body newId t .ok st).2 = .accepted newId
    ∧ dbLookup (submit_task body newId t .ok st).1.store newId
        = some (mkRecord newId req.task_name t)
    ∧ (mkRecord newId req.task_name t).status = .PENDING
    ∧ (submit_task body newId t .ok st).1.queue
        = { task_id := newId, task_name := req.task_name, params := req.params } :: st.queue := by
  refine ⟨?_, ?_, rfl, ?_⟩
  · simp [submit_task, hvalid]
  · have : (submit_task body newId t .ok st).1.store
        = st.store ++ [mkRecord newId req.task_name t] := by
      simp [submit_task, hvalid]
    rw [this, dbLookup_append_of_none _ _ _ hfresh, dbLookup_singleton_mk]
  · simp [submit_task, hvalid]

/-- Claim C7, counterexample: the empty task name passes validation and the
submission proceeds with both side effects, so submit does not fail with
ValidationError on an empty task_name. -/
theorem empty_task_name_accepted_cx :
    validateTaskRequest [("task_name", .jstr ""), ("params", .jobj [])]
        = some { task_name := "", params := [] }
    ∧ (submit_task [("task_name", .jstr ""), ("params", .jobj [])] "b7" 0 .ok
        { store := [], queue := [] }).2 = .accepted "b7"
    ∧ dbLookup (submit_task [("task_name", .jstr ""), ("params", .jobj [])] "b7" 0 .ok
        { store := [], queue := [] }).1.store "b7" = some (mkRecord "b7" "" 0)
    ∧ (submit_task [("task_name", .jstr ""), ("params", .jobj [])] "b7" 0 .ok
        { store := [], queue := [] }).1.queue
        = [{ task_id := "b7", task_name := "", params := [] }] := by
  refine ⟨rfl, rfl, rfl, rfl⟩

/-- Claim C7 (amended): validation failure rejects the request before any side
effect, and a missing field, a task_name that is not coercible to a string
(null or an object), or a params that is not an object each fail validation;
the empty string, however, is an accepted task_name. -/
theorem validation_rejects_before_side_effects :
    (∀ body newId t ev st, validateTaskRequest body = none →
      submit_task body newId t ev st
        = (st, .failed (.validationError "request body does not match TaskRequest")))
    ∧ (∀ body, alookup body "task_name" = none → validateTaskRequest body = none)
    ∧ (∀ body, alookup body "params" = none → validateTaskRequest body = none)
    ∧ (∀ body nv, alookup body "task_name" = some nv → strValidator nv = none →
        validateTaskRequest body = none)
    ∧ (∀ body pv, alookup body "params" = some pv → dictValidator pv = none →
        validateTaskRequest body = none)
    ∧ strValidator .jnull = none
    ∧ strValidator (.jobj []) = none
    ∧ dictValidator (.jstr "x") = none
    ∧ dictValidator .jnull = none := by
  refine ⟨?_, ?_, ?_, ?_, ?_, rfl, rfl, rfl, rfl⟩
  · intro body newId t ev st h
    simp [submit_task, h]
  · intro body h
    simp [validateTaskRequest, h]
  · intro body h
    cases hn : alookup body "task_name" <;> simp [validateTaskRequest, h, hn]
  · intro body nv hn h
    cases hp : alookup body "params" <;> simp [validateTaskRequest, h, hn, hp]
  · intro body pv hp h
    cases hn : alookup body "task_name" with
    | none => simp [validateTaskRequest, hn]
    | some nv => cases hs : strValidator nv <;> simp [validateTaskRequest, hn, hp, hs, h]

/-- Claim C6: the status query rejects a malformed id with 400 before any
store access (empty SELECT trace), returns 404 exactly when the id is well
formed but no record matches, and otherwise returns exactly the record the
store currently holds. -/
theorem get_status_trichotomy (store : Store) (task_id : String) :
    (pyUUIDOk task_id = false →
      get_task_status store task_id = (.httpError 400 "Invalid Task ID format.", []))
    ∧ (pyUUIDOk task_id = true → dbLookup store task_id = none →
      get_task_status store task_id
        = (.httpError 404 ("Task with ID " ++ task_id ++ " not found."), [task_id]))
    ∧ (∀ r, pyUUIDOk task_id = true → dbLookup store task_id = some r →
      get_task_status store task_id = (.ok r, [task_id]))
    ∧ (∀ d, (get_task_status store task_id).1 = .httpError 400 d ↔
        (pyUUIDOk task_id = false ∧ d = "Invalid Task ID format."))
    ∧ ((∃ d, (get_task_status store task_id).1 = .httpError 404 d) ↔
        (pyUUIDOk task_id = true ∧ dbLookup store task_id = none))
    ∧ (∀ r, (get_task_status store task_id).1 = .ok r ↔
        (pyUUIDOk task_id = true ∧ dbLookup store task_id = some r))
    ∧ (pyUUIDOk task_id = false → (get_task_status store task_id).2 = []) := by
  by_cases hu : pyUUIDOk task_id
  · cases hl : dbLookup store task_id with
    | none => refine ⟨?_, ?_, ?_, ?_, ?_, ?_, ?_⟩ <;> simp [get_task_status, hu, hl]
    | some r => refine ⟨?_, ?_, ?_, ?_, ?_, ?_, ?_⟩ <;> simp [get_task_status, hu, hl]
  · refine ⟨?_, ?_, ?_, ?_, ?_, ?_, ?_⟩ <;> simp [get_task_status, hu]
    exact fun d => eq_comm

/-- Claim C1, counterexample: a delivered job whose invocation raises (here a
keyword mismatch against the registered fetch_ip handler) is NOT resolved to
FAILED with the captured error: after the iteration the record is still
IN_PROGRESS and its result column is still null. -/
theorem handler_error_record_not_failed_cx :
    (dbLookup (bodyFinal TASK_REGISTRY
        (.deliver { task_id := "a1", task_name := "fetch_ip", params := [("x", .jnum 1)] } 3 4 none)
        [mkRecord "a1" "fetch_ip" 0]) "a1").map TaskRecord.status
      = some .IN_PROGRESS
    ∧ (dbLookup (bodyFinal TASK_REGISTRY
        (.deliver { task_id := "a1", task_name := "fetch_ip", params := [("x", .jnum 1)] } 3 4 none)
        [mkRecord "a1" "fetch_ip" 0]) "a1").map TaskRecord.status
      ≠ some .FAILED
    ∧ (dbLookup (bodyFinal TASK_REGISTRY
        (.deliver { task_id := "a1", task_name := "fetch_ip", params := [("x", .jnum 1)] } 3 4 none)
        [mkRecord "a1" "fetch_ip" 0]) "a1").map TaskRecord.result
      = some none := by
  refine ⟨rfl, by decide, rfl⟩

/-- Claim C1 (amended): when dispatch of a delivered envelope raises an
unexpected error, the error is caught per job and the worker loop continues
(final except arm, 5-second sleep before the next dequeue), but the job is NOT
marked FAILED: the only write performed is the IN_PROGRESS update and the
record keeps whatever result it had. -/
theorem handler_error_caught_loop_continues (registry : List (String × Handler))
    (env : Envelope) (t1 t2 : Nat) (store : Store) (f : Handler) (msg : String)
    (hreg : alookup registry env.task_name = some f)
    (hcall : callKwargs f env.params = .error msg) :
    (workerBody registry (.deliver env t1 t2 none) store).outcome
        = .err (.otherError msg)
    ∧ (workerBody registry (.deliver env t1 t2 none) store).trace
        = [dbUpdate store env.task_id (setInProgress t1)]
    ∧ workerIter registry (.deliver env t1 t2 none) store
        = (dbUpdate store env.task_id (setInProgress t1), .sleepRetry 5)
    ∧ dbLookup (bodyFinal registry (.deliver env t1 t2 none) store) env.task_id
        = (dbLookup store env.task_id).map (setInProgress t1) :=
  dispatch_raises_no_terminal_update registry env t1 t2 store f msg hreg hcall

/-- Claim C2, counterexample: delivering the same envelope twice drives the
record backward: the per-write status observations read PENDING, IN_PROGRESS,
COMPLETED, IN_PROGRESS, COMPLETED, and the observation chain is invalid at the
COMPLETED-to-IN_PROGRESS step, so status is not monotonic over every sequence
of envelope deliveries. -/
theorem duplicate_delivery_moves_status_backward :
    (([mkRecord "a1" "fetch_ip" 0] :: processAll TASK_REGISTRY
        [({ task_id := "a1", task_name := "fetch_ip", params := [("hostname", .jstr "example.com")] }, 1, 2),
         ({ task_id := "a1", task_name := "fetch_ip", params := [("hostname", .jstr "example.com")] }, 3, 4)]
        [mkRecord "a1" "fetch_ip" 0]).map
        (fun s => (dbLookup s "a1").map TaskRecord.status))
      = [some .PENDING, some .IN_PROGRESS, some .COMPLETED,
         some .IN_PROGRESS, some .COMPLETED]
    ∧ chainB recStepB (([mkRecord "a1" "fetch_ip" 0] :: processAll TASK_REGISTRY
        [({ task_id := "a1", task_name := "fetch_ip", params := [("hostname", .jstr "example.com")] }, 1, 2),
         ({ task_id := "a1", task_name := "fetch_ip", params := [("hostname", .jstr "example.com")] }, 3, 4)]
        [mkRecord "a1" "fetch_ip" 0]).map (fun s => dbLookup s "a1")) = false := by
  refine ⟨rfl, by decide⟩

/-- Claim C2 (amended): over any failure-free delivery schedule in which no
envelope is delivered twice and every addressed record is still PENDING,
every record observed after each database write moves only forward along
PENDING to IN_PROGRESS to COMPLETED or FAILED, and a record that has reached a
terminal status never changes again (both encoded in recStepB). -/
theorem status_monotonic_without_redelivery (registry : List (String × Handler))
    (jobs : List (Envelope × Nat × Nat)) (store : Store) (key : String)
    (hids : (jobs.map (fun j => j.1.task_id)).Nodup)
    (hpend : ∀ j ∈ jobs, ∀ r, dbLookup store j.1.task_id = some r →
      r.status = .PENDING) :
    chainB recStepB
      ((store :: processAll registry jobs store).map (fun s => dbLookup s key))
        = true :=
  processAll_chain registry jobs store key hids hpend

/-- Claim C5: a delivered envelope whose task name is not in the registry
resolves the job to terminal FAILED with the error document naming that task,
and no handler body is entered. -/
theorem unregistered_task_terminal_failed (registry : List (String × Handler))
    (env : Envelope) (t1 t2 : Nat) (store : Store) (r : TaskRecord)
    (hreg : alookup registry env.task_name = none)
    (hrec : dbLookup store env.task_id = some r) :
    (workerBody registry (.deliver env t1 t2 none) store).calls = []
    ∧ (workerBody registry (.deliver env t1 t2 none) store).outcome
        = .ok .failedUnregistered
    ∧ dbLookup (bodyFinal registry (.deliver env t1 t2 none) store) env.task_id
        = some (setFailed t2 (errorPayload env.task_name) (setInProgress t1 r))
    ∧ (setFailed t2 (errorPayload env.task_name) (setInProgress t1 r)).status
        = .FAILED
    ∧ (setFailed t2 (errorPayload env.task_name) (setInProgress t1 r)).result
        = some (errorPayload env.task_name)
    ∧ errorPayload env.task_name = .jobj [("error",
        .jstr ("Task name \x27" ++ env.task_name ++ "\x27 not found in registry."))] := by
  refine ⟨?_, ?_, ?_, rfl, rfl, rfl⟩
  · simp [workerBody, hreg]
  · simp [workerBody, hreg]
  · rw [bodyFinal_lookup, if_pos rfl]
    have hx : recXform registry env t1 t2
        = fun r => setFailed t2 (errorPayload env.task_name) (setInProgress t1 r) := by
      funext r
      simp [recXform, hreg]
    rw [hx, hrec]
    rfl

/-- Claim C8: the params document is copied verbatim into the envelope at
submission time, and the worker's behaviour is a function of the dequeued
envelope alone: the resolution and the handler invocations do not depend on
the store, and the store change is exactly the envelope-determined recXform
applied to the row under the envelope id, every other row being untouched
(no field is re-read from the store). -/
theorem worker_input_from_envelope_only :
    (∀ body req newId t st, validateTaskRequest body = some req →
      (submit_task body newId t .ok st).1.queue
        = { task_id := newId, task_name := req.task_name, params := req.params } :: st.queue)
    ∧ (∀ registry env t1 t2 (s1 s2 : Store),
        (workerBody registry (.deliver env t1 t2 none) s1).outcome
          = (workerBody registry (.deliver env t1 t2 none) s2).outcome
        ∧ (workerBody registry (.deliver env t1 t2 none) s1).calls
          = (workerBody registry (.deliver env t1 t2 none) s2).calls)
    ∧ (∀ registry env t1 t2 (store : Store) key,
        dbLookup (bodyFinal registry (.deliver env t1 t2 none) store) key
          = if key = env.task_id then
              (dbLookup store key).map (recXform registry env t1 t2)
            else dbLookup store key) := by
  refine ⟨?_, ?_, fun registry env t1 t2 store key => bodyFinal_lookup registry env t1 t2 store key⟩
  · intro body req newId t st h
    simp [submit_task, h]
  · intro registry env t1 t2 s1 s2
    cases halo : alookup registry env.task_name with
    | none => exact ⟨by simp [workerBody, halo], by simp [workerBody, halo]⟩
    | some f =>
      cases hcall : callKwargs f env.params with
      | ok res => exact ⟨by simp [workerBody, halo, hcall], by simp [workerBody, halo, hcall]⟩
      | error msg => exact ⟨by simp [workerBody, halo, hcall], by simp [workerBody, halo, hcall]⟩

/-- Claim C9: infrastructure failures are absorbed, never fatal.  The
reconnect loop retries unboundedly at a fixed 5-second interval and returns at
the first successful attempt; the worker loop takes one action per scheduled
iteration, never fewer; a Redis failure at the dequeue yields a 5-second
retry; a store failure during processing yields a reconnect; and every
iteration ends in a continuing action. -/
theorem infra_failure_absorbed_retry :
    (∀ (outcomes : Nat → Bool) j, outcomes j = true →
      ∃ i, i ≤ j ∧ get_db_connection outcomes (j + 1) = some (i, 5 * i) ∧
        outcomes i = true ∧ ∀ k, k < i → outcomes k = false)
    ∧ (∀ registry (inps : List IterInput) (store : Store),
        ((workerLoop registry inps store).2).length = inps.length)
    ∧ (∀ registry (store : Store),
        workerIter registry .redisDown store = (store, .sleepRetry 5))
    ∧ (∀ registry env t1 t2 (store : Store),
        (workerIter registry (.deliver env t1 t2 (some 0)) store).2 = .reconnectDb)
    ∧ (∀ registry inp (store : Store),
        (workerIter registry inp store).2 = .proceed
        ∨ (workerIter registry inp store).2 = .reconnectDb
        ∨ (workerIter registry inp store).2 = .sleepRetry 5) := by
  refine ⟨get_db_connection_first_success, workerLoop_length, ?_, ?_, ?_⟩
  · intro registry store
    simp [workerIter, workerBody, catchClauses]
  · intro registry env t1 t2 store
    simp [workerIter, workerBody, catchClauses]
  · intro registry inp store
    cases h : (workerBody registry inp store).outcome with
    | ok o =>
      left
      simp [workerIter, h]
    | err e =>
      right
      cases e with
      | dbError => left; simp [workerIter, h, catchClauses]
      | redisError => right; simp [workerIter, h, catchClauses]
      | otherError msg => right; simp [workerIter, h, catchClauses]

/-- Claim C10: a registered handler is invoked with the params document
unpacked as keyword arguments, so its body is entered exactly when the keys of
params match the declared parameter names; on a key mismatch the call raises,
the record is left IN_PROGRESS with no terminal update and the loop sleeps and
continues; and the record can read COMPLETED after the iteration only if the
keys matched. -/
theorem kwargs_dispatch_exact_keys (registry : List (String × Handler))
    (env : Envelope) (t1 t2 : Nat) (store : Store) (f : Handler)
    (hreg : alookup registry env.task_name = some f) :
    (kwargsMatch f env.params = true →
      (workerBody registry (.deliver env t1 t2 none) store).calls
        = [(env.task_name, env.params)])
    ∧ (kwargsMatch f env.params = false →
      (workerBody registry (.deliver env t1 t2 none) store).calls = []
      ∧ (workerBody registry (.deliver env t1 t2 none) store).outcome
          = .err (.otherError
              "TypeError: keyword arguments do not match the function parameters")
      ∧ (workerBody registry (.deliver env t1 t2 none) store).trace
          = [dbUpdate store env.task_id (setInProgress t1)]
      ∧ dbLookup (bodyFinal registry (.deliver env t1 t2 none) store) env.task_id
          = (dbLookup store env.task_id).map (setInProgress t1)
      ∧ (workerIter registry (.deliver env t1 t2 none) store).2 = .sleepRetry 5)
    ∧ ((dbLookup (bodyFinal registry (.deliver env t1 t2 none) store)
          env.task_id).map TaskRecord.status = some .COMPLETED →
        kwargsMatch f env.params = true) := by
  refine ⟨?_, ?_, ?_⟩
  · intro hm
    cases hrun : f.run env.params with
    | ok res => simp [workerBody, hreg, callKwargs, hm, hrun]
    | error msg => simp [workerBody, hreg, callKwargs, hm, hrun]
  · intro hm
    have hcall : callKwargs f env.params
        = .error "TypeError: keyword arguments do not match the function parameters" := by
      simp [callKwargs, hm]
    obtain ⟨h1, h2, h3, h4⟩ := dispatch_raises_no_terminal_update registry env t1 t2 store f
      "TypeError: keyword arguments do not match the function parameters" hreg hcall
    exact ⟨by simp [workerBody, hreg, hcall, hm], h1, h2, h4, by rw [h3]⟩
  · intro hcompleted
    by_cases hm : kwargsMatch f env.params
    · exact hm
    · exfalso
      have hcall : callKwargs f env.params
          = .error "TypeError: keyword arguments do not match the function parameters" := by
        simp [callKwargs, hm]
      have hfin := (dispatch_raises_no_terminal_update registry env t1 t2 store f
        "TypeError: keyword arguments do not match the function parameters" hreg hcall).2.2.2
      rw [hfin] at hcompleted
      cases hl : dbLookup store env.task_id with
      | none => rw [hl] at hcompleted; exact Option.noConfusion hcompleted
      | some r =>
        rw [hl] at hcompleted
        simp [setInProgress] at hcompleted

/-- Witness for claim C1 at a concrete job: fetch_ip invoked with a mismatched
keyword argument against a PENDING record. -/
theorem handler_error_caught_loop_continues_witness :
    (workerBody TASK_REGISTRY
        (.deliver { task_id := "a1", task_name := "fetch_ip", params := [("x", JVal.jnum 1)] } 3 4 none)
        [mkRecord "a1" "fetch_ip" 0]).outcome
      = .err (.otherError "TypeError: keyword arguments do not match the function parameters")
    ∧ (workerBody TASK_REGISTRY
        (.deliver { task_id := "a1", task_name := "fetch_ip", params := [("x", JVal.jnum 1)] } 3 4 none)
        [mkRecord "a1" "fetch_ip" 0]).trace
      = [dbUpdate [mkRecord "a1" "fetch_ip" 0] "a1" (setInProgress 3)]
    ∧ workerIter TASK_REGISTRY
        (.deliver { task_id := "a1", task_name := "fetch_ip", params := [("x", JVal.jnum 1)] } 3 4 none)
        [mkRecord "a1" "fetch_ip" 0]
      = (dbUpdate [mkRecord "a1" "fetch_ip" 0] "a1" (setInProgress 3), .sleepRetry 5)
    ∧ dbLookup (bodyFinal TASK_REGISTRY
        (.deliver { task_id := "a1", task_name := "fetch_ip", params := [("x", JVal.jnum 1)] } 3 4 none)
        [mkRecord "a1" "fetch_ip" 0]) "a1"
      = (dbLookup [mkRecord "a1" "fetch_ip" 0] "a1").map (setInProgress 3) :=
  handler_error_caught_loop_continues TASK_REGISTRY
    { task_id := "a1", task_name := "fetch_ip", params := [("x", JVal.jnum 1)] }
    3 4 [mkRecord "a1" "fetch_ip" 0] fetch_ip
    "TypeError: keyword arguments do not match the function parameters" rfl rfl

/-- Witness for claim C2 at a concrete single-delivery schedule against a
PENDING record. -/
theorem status_monotonic_without_redelivery_witness :
    chainB recStepB (([mkRecord "b1" "nope" 0] :: processAll TASK_REGISTRY
      [({ task_id := "b1", task_name := "nope", params := [] }, 1, 2)]
      [mkRecord "b1" "nope" 0]).map (fun s => dbLookup s "b1")) = true :=
  status_monotonic_without_redelivery TASK_REGISTRY
    [({ task_id := "b1", task_name := "nope", params := [] }, 1, 2)]
    [mkRecord "b1" "nope" 0] "b1" (by decide)
    (by
      intro j hj r hr
      rw [List.mem_singleton] at hj
      subst hj
      injection hr with h
      rw [← h]
      rfl)


/-- Witness for claim C3 at a concrete valid submission against empty systems. -/
theorem submit_failure_modes_witness :
    submit_task [("task_name", JVal.jstr "fetch_ip"),
        ("params", JVal.jobj [("hostname", JVal.jstr "h")])] "c3" 0 .dbAcquireFail
        { store := [], queue := [] }
      = ({ store := [], queue := [] }, .failed .storageUnavailable)
    ∧ submit_task [("task_name", JVal.jstr "fetch_ip"),
        ("params", JVal.jobj [("hostname", JVal.jstr "h")])] "c3" 0 .insertFail
        { store := [], queue := [] }
      = ({ store := [], queue := [] }, .failed .storageUnavailable)
    ∧ submit_task [("task_name", JVal.jstr "fetch_ip"),
        ("params", JVal.jobj [("hostname", JVal.jstr "h")])] "c3" 0 .pushFail
        { store := [], queue := [] }
      = ({ store := [], queue := [] }, .failed .queueUnavailable)
    ∧ (submit_task [("task_name", JVal.jstr "fetch_ip"),
        ("params", JVal.jobj [("hostname", JVal.jstr "h")])] "c3" 0 .commitFail
        { store := [], queue := [] }).2 = .failed .storageUnavailable
    ∧ dbLookup (submit_task [("task_name", JVal.jstr "fetch_ip"),
        ("params", JVal.jobj [("hostname", JVal.jstr "h")])] "c3" 0 .commitFail
        { store := [], queue := [] }).1.store "c3" = none
    ∧ (submit_task [("task_name", JVal.jstr "fetch_ip"),
        ("params", JVal.jobj [("hostname", JVal.jstr "h")])] "c3" 0 .commitFail
        { store := [], queue := [] }).1.queue
      = [{ task_id := "c3", task_name := "fetch_ip", params := [("hostname", JVal.jstr "h")] }] :=
  submit_failure_modes
    [("task_name", JVal.jstr "fetch_ip"), ("params", JVal.jobj [("hostname", JVal.jstr "h")])]
    { task_name := "fetch_ip", params := [("hostname", JVal.jstr "h")] }
    "c3" 0 { store := [], queue := [] } rfl rfl

/-- Witness for claim C4 at a concrete valid submission against empty systems. -/
theorem submit_success_postcondition_witness :
    (submit_task [("task_name", JVal.jstr "fetch_ip"),
        ("params", JVal.jobj [("hostname", JVal.jstr "h")])] "c4" 7 .ok
        { store := [], queue := [] }).2 = .accepted "c4"
    ∧ dbLookup (submit_task [("task_name", JVal.jstr "fetch_ip"),
        ("params", JVal.jobj [("hostname", JVal.jstr "h")])] "c4" 7 .ok
        { store := [], queue := [] }).1.store "c4"
      = some (mkRecord "c4" "fetch_ip" 7)
    ∧ (mkRecord "c4" "fetch_ip" 7).status = .PENDING
    ∧ (submit_task [("task_name", JVal.jstr "fetch_ip"),
        ("params", JVal.jobj [("hostname", JVal.jstr "h")])] "c4" 7 .ok
        { store := [], queue := [] }).1.queue
      = [{ task_id := "c4", task_name := "fetch_ip", params := [("hostname", JVal.jstr "h")] }] :=
  submit_success_postcondition
    [("task_name", JVal.jstr "fetch_ip"), ("params", JVal.jobj [("hostname", JVal.jstr "h")])]
    { task_name := "fetch_ip", params := [("hostname", JVal.jstr "h")] }
    "c4" 7 { store := [], queue := [] } rfl rfl

/-- Witness for claim C5 at a concrete unregistered delivery. -/
theorem unregistered_task_terminal_failed_witness :
    (workerBody TASK_REGISTRY (.deliver { task_id := "e5", task_name := "nope", params := [] } 1 2 none) [mkRecord "e5" "nope" 0]).calls = []
    ∧ (workerBody TASK_REGISTRY (.deliver { task_id := "e5", task_name := "nope", params := [] } 1 2 none) [mkRecord "e5" "nope" 0]).outcome
      = .ok .failedUnregistered
    ∧ dbLookup (bodyFinal TASK_REGISTRY (.deliver { task_id := "e5", task_name := "nope", params := [] } 1 2 none) [mkRecord "e5" "nope" 0]) "e5"
      = some (setFailed 2 (errorPayload "nope") (setInProgress 1 (mkRecord "e5" "nope" 0)))
    ∧ (setFailed 2 (errorPayload "nope") (setInProgress 1 (mkRecord "e5" "nope" 0))).status
      = .FAILED
    ∧ (setFailed 2 (errorPayload "nope") (setInProgress 1 (mkRecord "e5" "nope" 0))).result
      = some (errorPayload "nope")
    ∧ errorPayload "nope" = .jobj [("error",
        .jstr ("Task name \x27" ++ "nope" ++ "\x27 not found in registry."))] :=
  unregistered_task_terminal_failed TASK_REGISTRY
    { task_id := "e5", task_name := "nope", params := [] } 1 2
    [mkRecord "e5" "nope" 0] (mkRecord "e5" "nope" 0) rfl rfl

/-- Witness for claim C6 at a malformed id, a well-formed absent id, and a
well-formed present id. -/
theorem get_status_trichotomy_witness :
    get_task_status [] "not-a-uuid" = (.httpError 400 "Invalid Task ID format.", [])
    ∧ (get_task_status [] "not-a-uuid").2 = []
    ∧ get_task_status [] "123e4567-e89b-12d3-a456-426614174000"
      = (.httpError 404 ("Task with ID " ++ "123e4567-e89b-12d3-a456-426614174000"
          ++ " not found."), ["123e4567-e89b-12d3-a456-426614174000"])
    ∧ get_task_status [mkRecord "123e4567-e89b-12d3-a456-426614174000" "fetch_ip" 0]
        "123e4567-e89b-12d3-a456-426614174000"
      = (.ok (mkRecord "123e4567-e89b-12d3-a456-426614174000" "fetch_ip" 0),
         ["123e4567-e89b-12d3-a456-426614174000"]) :=
  ⟨(get_status_trichotomy [] "not-a-uuid").1 (by decide),
   (get_status_trichotomy [] "not-a-uuid").2.2.2.2.2.2 (by decide),
   (get_status_trichotomy [] "123e4567-e89b-12d3-a456-426614174000").2.1 (by decide) rfl,
   (get_status_trichotomy [mkRecord "123e4567-e89b-12d3-a456-426614174000" "fetch_ip" 0]
      "123e4567-e89b-12d3-a456-426614174000").2.2.1
      (mkRecord "123e4567-e89b-12d3-a456-426614174000" "fetch_ip" 0) (by decide) rfl⟩

/-- Witness for claim C7: a null task_name is rejected with no side effect,
and each malformed field shape fails validation. -/
theorem validation_rejects_before_side_effects_witness :
    submit_task [("task_name", JVal.jnull), ("params", JVal.jobj [])] "w7" 0 .ok
        { store := [], queue := [] }
      = ({ store := [], queue := [] },
         .failed (.validationError "request body does not match TaskRequest"))
    ∧ validateTaskRequest [("params", JVal.jobj [])] = none
    ∧ validateTaskRequest [("task_name", JVal.jstr "t")] = none
    ∧ validateTaskRequest [("task_name", JVal.jnull), ("params", JVal.jobj [])] = none
    ∧ validateTaskRequest [("task_name", JVal.jstr "t"), ("params", JVal.jstr "p")] = none :=
  ⟨validation_rejects_before_side_effects.1
      [("task_name", JVal.jnull), ("params", JVal.jobj [])] "w7" 0 .ok
      { store := [], queue := [] } rfl,
   validation_rejects_before_side_effects.2.1 [("params", JVal.jobj [])] rfl,
   validation_rejects_before_side_effects.2.2.1 [("task_name", JVal.jstr "t")] rfl,
   validation_rejects_before_side_effects.2.2.2.1
      [("task_name", JVal.jnull), ("params", JVal.jobj [])] JVal.jnull rfl rfl,
   validation_rejects_before_side_effects.2.2.2.2.1
      [("task_name", JVal.jstr "t"), ("params", JVal.jstr "p")] (JVal.jstr "p") rfl rfl⟩

/-- Witness for claim C8 at a concrete submission and a concrete delivery
against two different stores. -/
theorem worker_input_from_envelope_only_witness :
    (submit_task [("task_name", JVal.jstr "scan_url"),
        ("params", JVal.jobj [("url", JVal.jstr "u")])] "c8" 0 .ok
        { store := [], queue := [] }).1.queue
      = [{ task_id := "c8", task_name := "scan_url", params := [("url", JVal.jstr "u")] }]
    ∧ ((workerBody TASK_REGISTRY (.deliver { task_id := "c8", task_name := "scan_url", params := [("url", JVal.jstr "u")] } 1 2 none) []).outcome
        = (workerBody TASK_REGISTRY (.deliver { task_id := "c8", task_name := "scan_url", params := [("url", JVal.jstr "u")] } 1 2 none)
            [mkRecord "c8" "scan_url" 0]).outcome
      ∧ (workerBody TASK_REGISTRY (.deliver { task_id := "c8", task_name := "scan_url", params := [("url", JVal.jstr "u")] } 1 2 none) []).calls
        = (workerBody TASK_REGISTRY (.deliver { task_id := "c8", task_name := "scan_url", params := [("url", JVal.jstr "u")] } 1 2 none)
            [mkRecord "c8" "scan_url" 0]).calls)
    ∧ dbLookup (bodyFinal TASK_REGISTRY (.deliver { task_id := "c8", task_name := "scan_url", params := [("url", JVal.jstr "u")] } 1 2 none)
        [mkRecord "c8" "scan_url" 0]) "c8"
      = if ("c8" : String) = "c8" then
          (dbLookup [mkRecord "c8" "scan_url" 0] "c8").map
            (recXform TASK_REGISTRY { task_id := "c8", task_name := "scan_url", params := [("url", JVal.jstr "u")] } 1 2)
        else dbLookup [mkRecord "c8" "scan_url" 0] "c8" :=
  ⟨worker_input_from_envelope_only.1
      [("task_name", JVal.jstr "scan_url"), ("params", JVal.jobj [("url", JVal.jstr "u")])]
      { task_name := "scan_url", params := [("url", JVal.jstr "u")] }
      "c8" 0 { store := [], queue := [] } rfl,
   worker_input_from_envelope_only.2.1 TASK_REGISTRY
      { task_id := "c8", task_name := "scan_url", params := [("url", JVal.jstr "u")] }
      1 2 [] [mkRecord "c8" "scan_url" 0],
   worker_input_from_envelope_only.2.2 TASK_REGISTRY
      { task_id := "c8", task_name := "scan_url", params := [("url", JVal.jstr "u")] }
      1 2 [mkRecord "c8" "scan_url" 0] "c8"⟩

/-- Witness for claim C9: a reconnect succeeding at the third attempt after
two 5-second sleeps, a two-iteration schedule of failures fully processed,
and the concrete retry actions. -/
theorem infra_failure_absorbed_retry_witness :
    (∃ i, i ≤ 2 ∧ get_db_connection (fun n => n == 2) 3 = some (i, 5 * i) ∧
      (fun n : Nat => n == 2) i = true ∧ ∀ k, k < i → (fun n : Nat => n == 2) k = false)
    ∧ ((workerLoop TASK_REGISTRY [.redisDown, .badEnvelope "oops"] []).2).length = 2
    ∧ workerIter TASK_REGISTRY .redisDown [] = ([], .sleepRetry 5)
    ∧ (workerIter TASK_REGISTRY (.deliver { task_id := "z", task_name := "fetch_ip", params := [] } 1 2 (some 0)) []).2 = .reconnectDb
    ∧ ((workerIter TASK_REGISTRY .redisDown []).2 = .proceed
        ∨ (workerIter TASK_REGISTRY .redisDown []).2 = .reconnectDb
        ∨ (workerIter TASK_REGISTRY .redisDown []).2 = .sleepRetry 5) :=
  ⟨infra_failure_absorbed_retry.1 (fun n => n == 2) 2 rfl,
   infra_failure_absorbed_retry.2.1 TASK_REGISTRY [.redisDown, .badEnvelope "oops"] [],
   infra_failure_absorbed_retry.2.2.1 TASK_REGISTRY [],
   infra_failure_absorbed_retry.2.2.2.1 TASK_REGISTRY
      { task_id := "z", task_name := "fetch_ip", params := [] } 1 2 [],
   infra_failure_absorbed_retry.2.2.2.2 TASK_REGISTRY .redisDown []⟩

/-- Witness for claim C10: scan_url with the matching keyword is entered and
completes, and with a mismatched keyword the record stays IN_PROGRESS. -/
theorem kwargs_dispatch_exact_keys_witness :
    ((workerBody TASK_REGISTRY (.deliver { task_id := "w0", task_name := "scan_url", params := [("url", JVal.jstr "u")] } 1 2 none)
        [mkRecord "w0" "scan_url" 0]).calls
      = [("scan_url", [("url", JVal.jstr "u")])])
    ∧ ((workerBody TASK_REGISTRY (.deliver { task_id := "w1", task_name := "scan_url", params := [("bad", JVal.jstr "u")] } 1 2 none)
        [mkRecord "w1" "scan_url" 0]).calls = []
      ∧ (workerBody TASK_REGISTRY (.deliver { task_id := "w1", task_name := "scan_url", params := [("bad", JVal.jstr "u")] } 1 2 none)
          [mkRecord "w1" "scan_url" 0]).outcome
        = .err (.otherError
            "TypeError: keyword arguments do not match the function parameters")
      ∧ (workerBody TASK_REGISTRY (.deliver { task_id := "w1", task_name := "scan_url", params := [("bad", JVal.jstr "u")] } 1 2 none)
          [mkRecord "w1" "scan_url" 0]).trace
        = [dbUpdate [mkRecord "w1" "scan_url" 0] "w1" (setInProgress 1)]
      ∧ dbLookup (bodyFinal TASK_REGISTRY (.deliver { task_id := "w1", task_name := "scan_url", params := [("bad", JVal.jstr "u")] } 1 2 none)
          [mkRecord "w1" "scan_url" 0]) "w1"
        = (dbLookup [mkRecord "w1" "scan_url" 0] "w1").map (setInProgress 1)
      ∧ (workerIter TASK_REGISTRY (.deliver { task_id := "w1", task_name := "scan_url", params := [("bad", JVal.jstr "u")] } 1 2 none)
          [mkRecord "w1" "scan_url" 0]).2 = .sleepRetry 5)
    ∧ ((dbLookup (bodyFinal TASK_REGISTRY (.deliver { task_id := "w0", task_name := "scan_url", params := [("url", JVal.jstr "u")] } 1 2 none)
          [mkRecord "w0" "scan_url" 0]) "w0").map TaskRecord.status
        = some .COMPLETED →
      kwargsMatch scan_url [("url", JVal.jstr "u")] = true) :=
  ⟨(kwargs_dispatch_exact_keys TASK_REGISTRY
      { task_id := "w0", task_name := "scan_url", params := [("url", JVal.jstr "u")] }
      1 2 [mkRecord "w0" "scan_url" 0] scan_url rfl).1 rfl,
   (kwargs_dispatch_exact_keys TASK_REGISTRY
      { task_id := "w1", task_name := "scan_url", params := [("bad", JVal.jstr "u")] }
      1 2 [mkRecord "w1" "scan_url" 0] scan_url rfl).2.1 rfl,
   (kwargs_dispatch_exact_keys TASK_REGISTRY
      { task_id := "w0", task_name := "scan_url", params := [("url", JVal.jstr "u")] }
      1 2 [mkRecord "w0" "scan_url" 0] scan_url rfl).2.2⟩

end DTQM
